import Mathlib

/-!
Verification of the abuse-ticket triage script `contactmerge_lib.py`.

The script is a thin orchestration layer over a remote OTRS SOAP service.
We embed it shallowly:

* Remote mutating calls (`client.tc.TicketUpdate`) are recorded in a trace of
  `RCall` events; the remote database is a function `Nat → TicketState`
  (ticket id to its fields), and the effect of a trace on the database is
  given by `applyCalls`, modelled from the spec of the external service
  (setting the named field, appending an article).
* Remote reads (`TicketGet`) read the database function directly.
* Fallible Python code is embedded with `Except PyExc`.  Two behaviours of
  the source matter here and are embedded faithfully: Python string
  concatenation with a non-string right operand (`"msg" + e` where `e` is an
  exception object, or `"[" + ip` where `ip` is `None`) raises `TypeError`,
  and reading a local variable that was never assigned raises
  `UnboundLocalError`.
* The regular-expression search of `get_ticket_title_ip` is embedded as an
  executable leftmost, greedy, backtracking matcher for the concrete pattern
  `(\d{1,3}.\d{1,3}.\d{1,3}.\d{1,3})` used in the source, where `\d` is a
  Unicode decimal digit (category Nd, the class Python `\d` matches on `str`
  patterns) and `.` matches any character other than a newline
  (Python `re` without `DOTALL`).
* The embedding models the default configuration `verbose = False`
  (argparse `store_true` default), so verbose-only diagnostic logging does
  not appear; error-level logging does, as `RCall.logError` events.
-/

/-- Python exceptions that the embedded fragments can raise. -/
inductive PyExc where
  | typeError
  | unboundLocalError
  | valueError
  | remoteError
  deriving DecidableEq

/-- Python `str(x)` applied to an optional string: `str(None)` is the literal
string "None". -/
def pyStr : Option String → String
  | some s => s
  | none => "None"

/-- Python string concatenation `s + e` where the right operand is an
exception object, as written in every `except` block of the source
(for example `"Exception during queue update: " + e`): `str.__add__` with a
non-string right operand raises `TypeError`. -/
def pyStrAddExc (_s : String) (_e : PyExc) : Except PyExc String :=
  Except.error PyExc.typeError

/-- Remote calls issued by the script.  The five `update*` constructors are
the `TicketUpdate` variants the source issues (queue, title, CF-IP field,
state, appended article); `logError` records an error-level log line.
The article payload type `α` is a parameter of the model. -/
inductive RCall (α : Type) where
  | updateQueue (ticket_id : Nat) (queue : Nat)
  | updateTitle (ticket_id : Nat) (title : String)
  | updateIp (ticket_id : Nat) (ip : String)
  | updateState (ticket_id : Nat) (state : String)
  | updateArticle (ticket_id : Nat) (article : α)
  | logError (msg : String)
  deriving DecidableEq

/-- Whether a recorded call mutates the remote ticket system. -/
def RCall.isMutation : RCall α → Bool
  | .logError _ => false
  | _ => true

/-- The ticket id a recorded call is addressed to, if any. -/
def RCall.targetId : RCall α → Option Nat
  | .updateQueue t _ => some t
  | .updateTitle t _ => some t
  | .updateIp t _ => some t
  | .updateState t _ => some t
  | .updateArticle t _ => some t
  | .logError _ => none

/-- The fields of a remote ticket that the script reads or writes. -/
structure TicketState (α : Type) where
  title : String
  queue : Nat
  state : String
  cfIp : String
  articles : List α
  deriving DecidableEq

/-- Modelled from the spec: the effect of one `TicketUpdate` call on the
remote ticket database (the external OTRS service sets the named field of
the addressed ticket, and an article update appends the article); log lines
do not change tickets. -/
def applyCall (db : Nat → TicketState α) (c : RCall α) : Nat → TicketState α :=
  fun t =>
    match c with
    | .updateQueue tid q => if t = tid then { db t with queue := q } else db t
    | .updateTitle tid s => if t = tid then { db t with title := s } else db t
    | .updateIp tid s => if t = tid then { db t with cfIp := s } else db t
    | .updateState tid s => if t = tid then { db t with state := s } else db t
    | .updateArticle tid a =>
        if t = tid then { db t with articles := (db t).articles ++ [a] } else db t
    | .logError _ => db t

/-- Effect of a trace of calls, applied left to right. -/
def applyCalls (db : Nat → TicketState α) (cs : List (RCall α)) : Nat → TicketState α :=
  cs.foldl applyCall db

/-- Effect of a possibly-failing run: a raised exception leaves the database
as the calls issued before the raise left it; the embedded functions below
raise before issuing any call in their failing branches, so the initial
database is returned on error. -/
def runCalls (db : Nat → TicketState α) (r : Except PyExc (List (RCall α))) :
    Nat → TicketState α :=
  match r with
  | Except.ok tr => applyCalls db tr
  | Except.error _ => db

/-- Embeds `update_ticket_queue` (source lines 93-103), success path: one
`TicketUpdate` with `QueueIDs=[queue]`. The behaviour when the remote call
raises is embedded separately in `update_ticket_queue_onRemoteError`. -/
def update_ticket_queue (ticket_id : Nat) (queue : Nat) : List (RCall α) :=
  [RCall.updateQueue ticket_id queue]

/-- Embeds the `except` path of `update_ticket_queue`: the handler evaluates
`"Exception during queue update: " + e` before logging. -/
def update_ticket_queue_onRemoteError (e : PyExc) : Except PyExc Unit :=
  match pyStrAddExc "Exception during queue update: " e with
  | Except.error e2 => Except.error e2
  | Except.ok _ => Except.ok ()

/-- Embeds `update_ticket_ip` (lines 105-115), success path: one
`TicketUpdate` writing the CF-IP dynamic field.  (The call site at line 263
of the source is commented out, so no trace below contains this call.) -/
def update_ticket_ip (ticket_id : Nat) (ip : String) : List (RCall α) :=
  [RCall.updateIp ticket_id ip]

/-- Embeds the `except` path of `update_ticket_ip`. -/
def update_ticket_ip_onRemoteError (e : PyExc) : Except PyExc Unit :=
  match pyStrAddExc "Exception during ip address update: " e with
  | Except.error e2 => Except.error e2
  | Except.ok _ => Except.ok ()

/-- Embeds `close_ticket` (lines 117-127), success path: one `TicketUpdate`
setting `State` to the literal string "resolved". -/
def close_ticket (ticket_id : Nat) : List (RCall α) :=
  [RCall.updateState ticket_id "resolved"]

/-- Embeds the `except` path of `close_ticket`. -/
def close_ticket_onRemoteError (e : PyExc) : Except PyExc Unit :=
  match pyStrAddExc "Exception during ticket state update: " e with
  | Except.error e2 => Except.error e2
  | Except.ok _ => Except.ok ()

/-- Embeds `open_ticket` (lines 129-139), success path: one `TicketUpdate`
setting `State` to "Open". -/
def open_ticket (ticket_id : Nat) : List (RCall α) :=
  [RCall.updateState ticket_id "Open"]

/-- Embeds the `except` path of `open_ticket`. -/
def open_ticket_onRemoteError (e : PyExc) : Except PyExc Unit :=
  match pyStrAddExc "Exception during ticket state update: " e with
  | Except.error e2 => Except.error e2
  | Except.ok _ => Except.ok ()

/-- Embeds `update_ticket_title` (lines 141-153), success path: one
`TicketUpdate` setting `Title`. -/
def update_ticket_title (ticket_id : Nat) (title : String) : List (RCall α) :=
  [RCall.updateTitle ticket_id title]

/-- Embeds the `except` path of `update_ticket_title`. -/
def update_ticket_title_onRemoteError (e : PyExc) : Except PyExc Unit :=
  match pyStrAddExc "Exception during title update: " e with
  | Except.error e2 => Except.error e2
  | Except.ok _ => Except.ok ()

/-- Embeds `get_ticket` (lines 177-188) on the happy path: `TicketGet` reads
the ticket from the remote database.  (The falsy-ticketid guard of the
source is not reached by the call sites modelled here, which pass ids
obtained from search results.) -/
def get_ticket (db : Nat → TicketState α) (ticketid : Nat) : TicketState α :=
  db ticketid

/-- Embeds `merge_tickets` (lines 190-211): read both tickets, then for each
article `art` of ticket1, issue one `TicketUpdate` on ticket2 carrying
`ticket1_articles[ticket1_articles.index(art)]`.  Python `list.index` keyed
by equality is embedded by `List.indexOf`; the in-bounds proof corresponds
to `index` always succeeding on an element of the list being iterated. -/
def merge_tickets [DecidableEq α] (db : Nat → TicketState α)
    (ticket1_id ticket2_id : Nat) : List (RCall α) :=
  let ticket1 := get_ticket db ticket1_id
  let ticket1_articles := ticket1.articles
  ticket1_articles.attach.map (fun art =>
    RCall.updateArticle ticket2_id
      (ticket1_articles.get
        ⟨ticket1_articles.indexOf art.1, List.indexOf_lt_length.mpr art.2⟩))

/-- Queue list of the primary search, from source line 220. -/
def primary_search_queues : List Nat := [25]

/-- Title filter of the primary search (line 220):
`"%Contactformulier KPN voor het IP adres " + str(ip) + "%"`. -/
def primary_search_filter (ip : Option String) : String :=
  "%Contactformulier KPN voor het IP adres " ++ pyStr ip ++ "%"

/-- Queue list of the secondary search, from source line 232. -/
def secondary_search_queues : List Nat := [22, 23, 25]

/-- Title filter of the secondary search (line 232):
`"%Misbruik van uw internetverbinding " + "[" + str(ip) + "]%"`. -/
def secondary_search_filter (ip : Option String) : String :=
  "%Misbruik van uw internetverbinding " ++ "[" ++ pyStr ip ++ "]%"

/-- Embeds `primary_search` (lines 215-225) as a function of the outcome of
the remote `TicketSearch` call.  On success the assigned local `tickets` is
returned.  If the remote call raises, the `except` handler evaluates
`"Exception in primary search request: " + e`, which raises `TypeError`;
had that logging succeeded, `return tickets` would read the never-assigned
local `tickets`, raising `UnboundLocalError`.  Either way an exception
propagates to the caller. -/
def primary_search (remote : Except PyExc (List Nat)) : Except PyExc (List Nat) :=
  match remote with
  | Except.ok tickets => Except.ok tickets
  | Except.error e =>
    match pyStrAddExc "Exception in primary search request: " e with
    | Except.error e2 => Except.error e2
    | Except.ok _ => Except.error PyExc.unboundLocalError

/-- Embeds `secondary_search` (lines 227-237), same structure as
`primary_search` with its own log message. -/
def secondary_search (remote : Except PyExc (List Nat)) : Except PyExc (List Nat) :=
  match remote with
  | Except.ok tickets => Except.ok tickets
  | Except.error e =>
    match pyStrAddExc "Exception in secondary search request: " e with
    | Except.error e2 => Except.error e2
    | Except.ok _ => Except.error PyExc.unboundLocalError

/-- The dossier title built at source line 261:
`"Misbruik van uw internetverbinding " + "[" + ip + "]"` for a string ip. -/
def new_dossier_title (ip : String) : String :=
  "Misbruik van uw internetverbinding " ++ "[" ++ ip ++ "]"

/-- The queue the new-dossier branch moves the primary ticket to
(source line 264). -/
def dossier_queue : Nat := 25

/-- Embeds `handle_results` (lines 239-269).  The branch structure follows
the source exactly: outer guard on `len(primary_tickets) > 0`, then
`len(secondary_tickets) > 0`, then `len(secondary_tickets) > 1`.  The
new-dossier branch builds `ticket_title` by string concatenation on `ip`;
when the driver passes `ip = None` (extraction failed), the concatenation
`"[" + ip` raises `TypeError`, embedded by the `none` case.  The result is
the trace of calls issued (or the exception raised). -/
def handle_results [DecidableEq α] (db : Nat → TicketState α)
    (primary_tickets secondary_tickets : List Nat) (ip : Option String) :
    Except PyExc (List (RCall α)) :=
  if 0 < primary_tickets.length then
    if 0 < secondary_tickets.length then
      if 1 < secondary_tickets.length then
        Except.ok [RCall.logError "Multiple dossiers found, aborting."]
      else
        Except.ok
          (merge_tickets db (primary_tickets.headD 0) (secondary_tickets.headD 0) ++
            close_ticket (primary_tickets.headD 0) ++
            open_ticket (secondary_tickets.headD 0))
    else
      match ip with
      | none => Except.error PyExc.typeError
      | some s =>
        Except.ok
          (update_ticket_title (primary_tickets.headD 0) (new_dossier_title s) ++
            update_ticket_queue (primary_tickets.headD 0) dossier_queue ++
            open_ticket (primary_tickets.headD 0))
  else
    Except.ok []

/-- The code-point ranges matched by `\d` in a Python 3 `str` pattern
(Unicode decimal digits, general category Nd), as enumerated by matching
`\d` against every code point with the `re` module of the CPython that runs
the source. -/
def ndRanges : List (Nat × Nat) :=
  [    (0x30, 0x39), (0x660, 0x669), (0x6F0, 0x6F9), (0x7C0, 0x7C9), (0x966,
    0x96F), (0x9E6, 0x9EF), (0xA66, 0xA6F), (0xAE6, 0xAEF), (0xB66, 0xB6F),
    (0xBE6, 0xBEF), (0xC66, 0xC6F), (0xCE6, 0xCEF), (0xD66, 0xD6F), (0xDE6,
    0xDEF), (0xE50, 0xE59), (0xED0, 0xED9), (0xF20, 0xF29), (0x1040, 0x1049),
    (0x1090, 0x1099), (0x17E0, 0x17E9), (0x1810, 0x1819), (0x1946, 0x194F),
    (0x19D0, 0x19D9), (0x1A80, 0x1A89), (0x1A90, 0x1A99), (0x1B50, 0x1B59),
    (0x1BB0, 0x1BB9), (0x1C40, 0x1C49), (0x1C50, 0x1C59), (0xA620, 0xA629),
    (0xA8D0, 0xA8D9), (0xA900, 0xA909), (0xA9D0, 0xA9D9), (0xA9F0, 0xA9F9),
    (0xAA50, 0xAA59), (0xABF0, 0xABF9), (0xFF10, 0xFF19), (0x104A0, 0x104A9),
    (0x10D30, 0x10D39), (0x11066, 0x1106F), (0x110F0, 0x110F9), (0x11136,
    0x1113F), (0x111D0, 0x111D9), (0x112F0, 0x112F9), (0x11450, 0x11459),
    (0x114D0, 0x114D9), (0x11650, 0x11659), (0x116C0, 0x116C9), (0x11730,
    0x11739), (0x118E0, 0x118E9), (0x11950, 0x11959), (0x11C50, 0x11C59),
    (0x11D50, 0x11D59), (0x11DA0, 0x11DA9), (0x16A60, 0x16A69), (0x16AC0,
    0x16AC9), (0x16B50, 0x16B59), (0x1D7CE, 0x1D7FF), (0x1E140, 0x1E149),
    (0x1E2F0, 0x1E2F9), (0x1E950, 0x1E959), (0x1FBF0, 0x1FBF9)]

/-- Decimal digit test, embedding `\d` of the source pattern: membership in
one of the Unicode decimal-digit ranges. -/
def isDig (c : Char) : Bool :=
  ndRanges.any (fun p => p.1 ≤ c.toNat && c.toNat ≤ p.2)

/-- A well-formed octet of the pattern: one to three digits, embedding
`\d{1,3}`. -/
def okOctet (d : List Char) : Bool :=
  d.all isDig && decide (1 ≤ d.length) && decide (d.length ≤ 3)

/-- All ways for `\d{1,3}` to consume a prefix of `s`, paired with the rest,
listed in the greedy preference order of the regex engine: three digits
first, then two, then one. -/
def octetSplits : List Char → List (List Char × List Char)
  | [] => []
  | c1 :: r1 =>
    if isDig c1 then
      (match r1 with
       | [] => []
       | c2 :: r2 =>
         if isDig c2 then
           (match r2 with
            | [] => []
            | c3 :: r3 => if isDig c3 then [([c1, c2, c3], r3)] else []) ++
           [([c1, c2], r2)]
         else []) ++
      [([c1], r1)]
    else []

/-- First success of `f` over a list of candidates, in order; this is the
backtracking search order of the regex engine. -/
def firstSome (f : β → Option γ) : List β → Option γ
  | [] => none
  | b :: bs =>
    match f b with
    | some g => some g
    | none => firstSome f bs

/-- Attempt to match `\d{1,3}.\d{1,3}.\d{1,3}.\d{1,3}` at the start of `s`,
with the greedy backtracking order of Python `re`: each octet prefers the
longest take, each `.` separator consumes exactly one character that is not
a newline, and the first overall success is returned as the matched
characters. -/
def matchQuadAt (s : List Char) : Option (List Char) :=
  firstSome (fun p1 =>
    match p1.2 with
    | [] => none
    | s1 :: r1 =>
      if s1 = '\n' then none else
      firstSome (fun p2 =>
        match p2.2 with
        | [] => none
        | s2 :: r2 =>
          if s2 = '\n' then none else
          firstSome (fun p3 =>
            match p3.2 with
            | [] => none
            | s3 :: r3 =>
              if s3 = '\n' then none else
              match octetSplits r3 with
              | [] => none
              | p4 :: _ =>
                some (p1.1 ++ s1 :: (p2.1 ++ s2 :: (p3.1 ++ s3 :: p4.1))))
            (octetSplits r2))
        (octetSplits r1))
    (octetSplits s)

/-- Leftmost search, embedding `re.search`: try each start position from the
left and return the match found at the first position that has one. -/
def reSearchQuad : List Char → Option (List Char)
  | [] => none
  | c :: rest =>
    match matchQuadAt (c :: rest) with
    | some m => some m
    | none => reSearchQuad rest

/-- Embeds the extraction performed by `get_ticket_title_ip`
(lines 155-175) on the Title text of the ticket:
`re.search(r'(\d{1,3}.\d{1,3}.\d{1,3}.\d{1,3})', title)`, returning the
matched group on success and `None` when the pattern does not occur. -/
def get_ticket_title_ip (title : String) : Option String :=
  (reSearchQuad title.toList).map String.mk

/-- The shape denoted by the pattern `\d{1,3}S\d{1,3}S\d{1,3}S\d{1,3}` for a
separator class `sep`: four octets of one to three digits joined by three
single separator characters from `sep`. -/
def QuadShapeWith (sep : Char → Prop) (m : List Char) : Prop :=
  ∃ d1 s1 d2 s2 d3 s3 d4,
    m = d1 ++ s1 :: (d2 ++ s2 :: (d3 ++ s3 :: d4)) ∧
    okOctet d1 = true ∧ sep s1 ∧ okOctet d2 = true ∧ sep s2 ∧
    okOctet d3 = true ∧ sep s3 ∧ okOctet d4 = true

/-- The separator class actually accepted by the source pattern: `.` without
`DOTALL` matches any character except a newline. -/
def okSep (c : Char) : Prop := c ≠ '\n'

/-- The list `m` occurs as a contiguous substring of `l` starting at
index `i`. -/
def SubAt (l : List Char) (i : Nat) (m : List Char) : Prop :=
  ∃ t, l.drop i = m ++ t

/-- Embeds one iteration of the driver loop in `main` (lines 294-297):
extract the ip from the Title of the current primary ticket, run the
secondary search with it (the remote search result for a given title filter
is the environment `secondaryResults`), and classify via `handle_results`
with the singleton primary list `[ticket]`.  The indexing
`primary_tickets[primary_tickets.index(ticket)]` of the source denotes the
iterated ticket itself. -/
def main_step [DecidableEq α] (db : Nat → TicketState α)
    (secondaryResults : String → List Nat) (ticket : Nat) :
    Except PyExc (List (RCall α)) :=
  let secondary_ip := get_ticket_title_ip (get_ticket db ticket).title
  let secondary_tickets := secondaryResults (secondary_search_filter secondary_ip)
  handle_results db [ticket] secondary_tickets secondary_ip

/-- Concrete database used by witnesses of the classifier claims. -/
def db1 : Nat → TicketState Nat :=
  fun _ => { title := "t", queue := 0, state := "new", cfIp := "", articles := [] }

/-- Concrete database of the Scenario A counterexample: ticket 100 is a
contact-form ticket for 203.0.113.5. -/
def db5 : Nat → TicketState Nat :=
  fun _ =>
    { title := "Contactformulier KPN voor het IP adres [203.0.113.5]",
      queue := 46, state := "new", cfIp := "", articles := [] }

/-- Concrete database for the missing-ip driver claim: the ticket title
contains no digit sequence, and the ticket has one article. -/
def db8 : Nat → TicketState Nat :=
  fun _ =>
    { title := "geen ip hier", queue := 25, state := "new", cfIp := "",
      articles := [7] }

/-- Concrete database used by the frame-claim witness. -/
def db9 : Nat → TicketState Nat :=
  fun n =>
    { title := "t", queue := n, state := "new", cfIp := "", articles := [n] }

theorem merge_tickets_eq_map [DecidableEq α] (db : Nat → TicketState α) (t1 t2 : Nat) :
    merge_tickets db t1 t2 = (db t1).articles.map (RCall.updateArticle t2) := by
  simp only [merge_tickets, get_ticket]
  rw [← List.attach_map_val ((db t1).articles) (RCall.updateArticle t2)]
  exact List.map_congr_left (fun x _ => by rw [List.indexOf_get])

theorem applyCalls_updateArticle_map (db : Nat → TicketState α) (t2 : Nat)
    (as : List α) (t : Nat) :
    applyCalls db (as.map (RCall.updateArticle t2)) t =
      if t = t2 then { db t with articles := (db t).articles ++ as } else db t := by
  induction as generalizing db with
  | nil =>
    simp only [List.map_nil, applyCalls, List.foldl_nil, List.append_nil]
    split <;> rfl
  | cons a rest ih =>
    simp only [List.map_cons, applyCalls, List.foldl_cons] at ih ⊢
    rw [ih]
    by_cases h : t = t2 <;> simp [applyCall, h]

theorem applyCall_frame (db : Nat → TicketState α) (c : RCall α) (t : Nat)
    (h : c.targetId ≠ some t) : applyCall db c t = db t := by
  cases c <;> simp only [applyCall, RCall.targetId] at h ⊢ <;>
    try rw [if_neg (fun heq => h (by rw [heq]))]

theorem applyCalls_frame (db : Nat → TicketState α) (cs : List (RCall α)) (t : Nat)
    (h : ∀ c ∈ cs, c.targetId ≠ some t) : applyCalls db cs t = db t := by
  induction cs generalizing db with
  | nil => rfl
  | cons c rest ih =>
    simp only [applyCalls, List.foldl_cons] at ih ⊢
    calc List.foldl applyCall (applyCall db c) rest t
        = applyCall db c t := ih _ (fun d hd => h d (List.mem_cons_of_mem _ hd))
      _ = db t := applyCall_frame db c t (h c (List.mem_cons_self _ _))

theorem mutation_has_target (c : RCall α) (h : c.isMutation = true) :
    c.targetId ≠ none := by
  cases c <;> simp [RCall.targetId, RCall.isMutation] at h ⊢

theorem handle_results_targets [DecidableEq α] (db : Nat → TicketState α)
    (p s : List Nat) (ip : Option String) (tr : List (RCall α))
    (h : handle_results db p s ip = Except.ok tr) :
    ∀ c ∈ tr, c.targetId = none ∨ c.targetId = some (p.headD 0) ∨
      c.targetId = some (s.headD 0) := by
  intro c hc
  by_cases hp : 0 < p.length
  · by_cases hs : 0 < s.length
    · by_cases hs1 : 1 < s.length
      · simp only [handle_results, if_pos hp, if_pos hs, if_pos hs1,
          Except.ok.injEq] at h
        subst h
        simp only [List.mem_singleton] at hc
        subst hc
        exact Or.inl rfl
      · simp only [handle_results, if_pos hp, if_pos hs, if_neg hs1,
          Except.ok.injEq] at h
        subst h
        simp only [merge_tickets_eq_map, close_ticket, open_ticket,
          List.mem_append, List.mem_map, List.mem_singleton] at hc
        rcases hc with (⟨a, _, rfl⟩ | rfl) | rfl
        · exact Or.inr (Or.inr rfl)
        · exact Or.inr (Or.inl rfl)
        · exact Or.inr (Or.inr rfl)
    · cases ip with
      | none => simp [handle_results, if_pos hp, if_neg hs] at h
      | some v =>
        simp only [handle_results, if_pos hp, if_neg hs, Except.ok.injEq] at h
        subst h
        simp only [update_ticket_title, update_ticket_queue, open_ticket,
          List.mem_append, List.mem_singleton] at hc
        rcases hc with (rfl | rfl) | rfl
        · exact Or.inr (Or.inl rfl)
        · exact Or.inr (Or.inl rfl)
        · exact Or.inr (Or.inl rfl)
  · simp only [handle_results, if_neg hp, Except.ok.injEq] at h
    subst h
    simp at hc

/-- C1: `handle_results` selects exactly one action, determined by the two
result-list lengths alone: empty primary is a no-op; nonempty primary with
empty secondary issues the new-dossier calls on the first primary ticket;
nonempty primary with exactly one secondary issues the merge calls; and
more than one secondary only logs an error, which is not a mutating call. -/
theorem c1_classifies_by_lengths {α : Type} [DecidableEq α]
    (db : Nat → TicketState α) (p s : List Nat) (ip : String) :
    (p.length = 0 → handle_results db p s (some ip) = Except.ok []) ∧
    (1 ≤ p.length → s.length = 0 →
      handle_results db p s (some ip) =
        Except.ok (update_ticket_title (p.headD 0) (new_dossier_title ip) ++
          update_ticket_queue (p.headD 0) dossier_queue ++
          open_ticket (p.headD 0))) ∧
    (1 ≤ p.length → s.length = 1 →
      handle_results db p s (some ip) =
        Except.ok (merge_tickets db (p.headD 0) (s.headD 0) ++
          close_ticket (p.headD 0) ++ open_ticket (s.headD 0))) ∧
    (1 ≤ p.length → 1 < s.length →
      handle_results db p s (some ip) =
        Except.ok [RCall.logError "Multiple dossiers found, aborting."] ∧
      (RCall.logError "Multiple dossiers found, aborting." : RCall α).isMutation
        = false) := by
  refine ⟨?_, ?_, ?_, ?_⟩
  · intro h0
    simp [handle_results, h0]
  · intro h1 h2
    simp [handle_results, h2, Nat.lt_of_lt_of_le Nat.zero_lt_one h1]
  · intro h1 h2
    simp [handle_results, h2, Nat.lt_of_lt_of_le Nat.zero_lt_one h1]
  · intro h1 h2
    refine ⟨?_, rfl⟩
    simp [handle_results, Nat.lt_of_lt_of_le Nat.zero_lt_one h1,
      Nat.lt_trans Nat.zero_lt_one h2, h2]

/-- Witness for C1 at a concrete input: one primary ticket and two dossiers
select the abort action. -/
theorem c1_witness :
    handle_results db1 [100] [50, 51] (some "1.2.3.4") =
      Except.ok [RCall.logError "Multiple dossiers found, aborting."] :=
  ((c1_classifies_by_lengths db1 [100] [50, 51] "1.2.3.4").2.2.2
    (by decide) (by decide)).1

/-- C3: when the remote `TicketSearch` call raises, neither search function
logs and returns; each raises `TypeError` out of its own `except` handler
(string concatenation with the exception object), so the failure propagates
to the caller. -/
theorem c3_search_failure_raises :
    primary_search (Except.error PyExc.remoteError) =
      Except.error PyExc.typeError ∧
    secondary_search (Except.error PyExc.remoteError) =
      Except.error PyExc.typeError :=
  ⟨rfl, rfl⟩

/-- C4: when the remote `TicketUpdate` call raises, every mutation helper
(queue, CF-IP, close, open, title) raises `TypeError` out of its `except`
handler instead of logging and returning normally. -/
theorem c4_mutation_failure_raises :
    update_ticket_queue_onRemoteError PyExc.remoteError =
      Except.error PyExc.typeError ∧
    update_ticket_ip_onRemoteError PyExc.remoteError =
      Except.error PyExc.typeError ∧
    close_ticket_onRemoteError PyExc.remoteError =
      Except.error PyExc.typeError ∧
    open_ticket_onRemoteError PyExc.remoteError =
      Except.error PyExc.typeError ∧
    update_ticket_title_onRemoteError PyExc.remoteError =
      Except.error PyExc.typeError :=
  ⟨rfl, rfl, rfl, rfl, rfl⟩

/-- C5 counterexample: in the new-dossier case (primary ticket 100 for
203.0.113.5, empty secondary) the title of the primary ticket afterwards
differs from its title before, because the branch issues a title update. -/
theorem c5_counterexample :
    (runCalls db5 (handle_results db5 [100] ([] : List Nat) (some "203.0.113.5"))
        100).title ≠ (db5 100).title := by
  decide

/-- C5 amended: in the new-dossier case the primary ticket ends with its
title set to the canonical dossier phrase for the ip (not left unchanged),
its queue set to the dossier queue, and its state set to Open. -/
theorem c5_new_dossier_effect {α : Type} [DecidableEq α]
    (db : Nat → TicketState α) (p0 : Nat) (prest : List Nat) (ip : String) :
    (runCalls db (handle_results db (p0 :: prest) [] (some ip)) p0).title =
      new_dossier_title ip ∧
    (runCalls db (handle_results db (p0 :: prest) [] (some ip)) p0).queue =
      dossier_queue ∧
    (runCalls db (handle_results db (p0 :: prest) [] (some ip)) p0).state =
      "Open" := by
  simp [handle_results, runCalls, applyCalls, applyCall, update_ticket_title,
    update_ticket_queue, open_ticket]

/-- C6: with a nonempty primary and exactly one secondary, `handle_results`
issues, in this order: one article update into the dossier per article of
the primary ticket, then the state update "resolved" on the primary ticket,
then the state update "Open" on the dossier. -/
theorem c6_merge_sequence {α : Type} [DecidableEq α] (db : Nat → TicketState α)
    (p0 s0 : Nat) (prest : List Nat) (ip : Option String) :
    handle_results db (p0 :: prest) [s0] ip =
      Except.ok ((db p0).articles.map (RCall.updateArticle s0) ++
        [RCall.updateState p0 "resolved", RCall.updateState s0 "Open"]) := by
  simp [handle_results, close_ticket, open_ticket, merge_tickets_eq_map]

/-- C7: `merge_tickets` issues exactly one article update per article of the
source ticket, carrying the articles of the source in their original order,
and applying the trace leaves the destination with its original articles
followed by all source articles. -/
theorem c7_merge_appends_in_order {α : Type} [DecidableEq α]
    (db : Nat → TicketState α) (t1 t2 : Nat) :
    merge_tickets db t1 t2 = (db t1).articles.map (RCall.updateArticle t2) ∧
    (applyCalls db (merge_tickets db t1 t2) t2).articles =
      (db t2).articles ++ (db t1).articles := by
  refine ⟨merge_tickets_eq_map db t1 t2, ?_⟩
  rw [merge_tickets_eq_map, applyCalls_updateArticle_map]
  simp

/-- C8: a primary ticket whose title yields no extractable ip is not
skipped.  The driver step still issues the secondary search, with the
filter built from the Python rendering of `None`; with an empty secondary
result the new-dossier branch raises `TypeError` concatenating `None` into
the title (and `main` catches only `ValueError`); with a nonempty secondary
result the merge mutations are issued for the ip-less ticket. -/
theorem c8_no_ip_not_skipped :
    secondary_search_filter (get_ticket_title_ip "geen ip hier") =
      "%Misbruik van uw internetverbinding [None]%" ∧
    main_step db8 (fun _ => []) 100 = Except.error PyExc.typeError ∧
    main_step db8 (fun _ => [55]) 100 =
      Except.ok [RCall.updateArticle 55 7, RCall.updateState 100 "resolved",
        RCall.updateState 55 "Open"] := by
  refine ⟨by decide, rfl, rfl⟩

/-- C9: within one `handle_results` call, every mutating call is addressed
to the first primary ticket or the first secondary ticket, and any ticket
distinct from both is left untouched by the call. -/
theorem c9_only_heads_mutated {α : Type} [DecidableEq α]
    (db : Nat → TicketState α) (p s : List Nat) (ip : Option String) (t : Nat)
    (h1 : t ≠ p.headD 0) (h2 : t ≠ s.headD 0) :
    runCalls db (handle_results db p s ip) t = db t ∧
    ∀ tr, handle_results db p s ip = Except.ok tr → ∀ c ∈ tr,
      c.isMutation = true →
      c.targetId = some (p.headD 0) ∨ c.targetId = some (s.headD 0) := by
  constructor
  · cases hr : handle_results db p s ip with
    | error e => simp [runCalls]
    | ok tr =>
      simp only [runCalls]
      refine applyCalls_frame db tr t (fun c hc => ?_)
      rcases handle_results_targets db p s ip tr hr c hc with h | h | h <;> rw [h]
      · exact fun heq => Option.noConfusion heq
      · exact fun heq => h1 (Option.some.inj heq).symm
      · exact fun heq => h2 (Option.some.inj heq).symm
  · intro tr hr c hc hm
    rcases handle_results_targets db p s ip tr hr c hc with h | h | h
    · exact absurd h (mutation_has_target c hm)
    · exact Or.inl h
    · exact Or.inr h

/-- Witness for C9 at a concrete input: with primary tickets 100 and 101 and
dossier 50, the second primary ticket 101 is untouched. -/
theorem c9_witness :
    runCalls db9 (handle_results db9 [100, 101] [50] (some "1.2.3.4")) 101 =
      db9 101 :=
  (c9_only_heads_mutated db9 [100, 101] [50] (some "1.2.3.4") 101
    (by decide) (by decide)).1

theorem firstSome_eq_none {β γ : Type} {f : β → Option γ} :
    ∀ {l : List β}, firstSome f l = none → ∀ b ∈ l, f b = none := by
  intro l
  induction l with
  | nil => intro _ b hb; cases hb
  | cons x xs ih =>
    intro h b hb
    unfold firstSome at h
    cases hfx : f x with
    | some g => rw [hfx] at h; exact Option.noConfusion h
    | none =>
      rw [hfx] at h
      rcases List.mem_cons.mp hb with rfl | hb'
      · exact hfx
      · exact ih h b hb'

theorem firstSome_eq_some {β γ : Type} {f : β → Option γ} {g : γ} :
    ∀ {l : List β}, firstSome f l = some g → ∃ b ∈ l, f b = some g := by
  intro l
  induction l with
  | nil => intro h; exact Option.noConfusion h
  | cons x xs ih =>
    intro h
    unfold firstSome at h
    cases hfx : f x with
    | some g2 =>
      rw [hfx] at h
      exact ⟨x, List.mem_cons_self _ _, hfx.trans h⟩
    | none =>
      rw [hfx] at h
      obtain ⟨b, hb, hfb⟩ := ih h
      exact ⟨b, List.mem_cons_of_mem _ hb, hfb⟩

theorem octetSplits_sound {s d r : List Char} (h : (d, r) ∈ octetSplits s) :
    s = d ++ r ∧ okOctet d = true := by
  match s with
  | [] => cases h
  | c1 :: r1 =>
    simp only [octetSplits] at h
    by_cases hc1 : isDig c1
    · rw [if_pos hc1] at h
      rcases List.mem_append.mp h with hA | hB
      · match r1 with
        | [] => cases hA
        | c2 :: r2 =>
          dsimp only at hA
          by_cases hc2 : isDig c2
          · rw [if_pos hc2] at hA
            rcases List.mem_append.mp hA with hC | hD
            · match r2 with
              | [] => cases hC
              | c3 :: r3 =>
                dsimp only at hC
                by_cases hc3 : isDig c3
                · rw [if_pos hc3] at hC
                  rcases List.mem_singleton.mp hC with heq
                  obtain ⟨rfl, rfl⟩ := Prod.mk.injEq .. ▸ And.intro
                    (congrArg Prod.fst heq) (congrArg Prod.snd heq)
                  exact ⟨rfl, by simp [okOctet]; exact ⟨hc1, hc2, hc3⟩⟩
                · rw [if_neg hc3] at hC; cases hC
            · rcases List.mem_singleton.mp hD with heq
              obtain ⟨rfl, rfl⟩ := Prod.mk.injEq .. ▸ And.intro
                (congrArg Prod.fst heq) (congrArg Prod.snd heq)
              exact ⟨rfl, by simp [okOctet]; exact ⟨hc1, hc2⟩⟩
          · rw [if_neg hc2] at hA; cases hA
      · rcases List.mem_singleton.mp hB with heq
        obtain ⟨rfl, rfl⟩ := Prod.mk.injEq .. ▸ And.intro
          (congrArg Prod.fst heq) (congrArg Prod.snd heq)
        exact ⟨rfl, by simp [okOctet]; exact hc1⟩
    · rw [if_neg hc1] at h; cases h

theorem octetSplits_complete {d r : List Char} (hd : okOctet d = true) :
    (d, r) ∈ octetSplits (d ++ r) := by
  simp only [okOctet, Bool.and_eq_true, decide_eq_true_eq, List.all_eq_true] at hd
  obtain ⟨⟨hall, hlen1⟩, hlen3⟩ := hd
  match d with
  | [a] =>
    have ha : isDig a = true := hall a (by simp)
    simp [octetSplits, ha]
  | [a, b] =>
    have ha : isDig a = true := hall a (by simp)
    have hb : isDig b = true := hall b (by simp)
    simp [octetSplits, ha, hb]
  | [a, b, c] =>
    have ha : isDig a = true := hall a (by simp)
    have hb : isDig b = true := hall b (by simp)
    have hc : isDig c = true := hall c (by simp)
    simp [octetSplits, ha, hb, hc]

theorem matchQuadAt_sound {s m : List Char} (h : matchQuadAt s = some m) :
    (∃ t, s = m ++ t) ∧ QuadShapeWith okSep m := by
  unfold matchQuadAt at h
  obtain ⟨⟨d1, r1x⟩, hp1, h1⟩ := firstSome_eq_some h
  obtain ⟨hs1, ok1⟩ := octetSplits_sound hp1
  match r1x with
  | [] => exact Option.noConfusion h1
  | s1 :: r1 =>
    simp only at h1
    by_cases hn1 : s1 = '\n'
    · rw [if_pos hn1] at h1; exact Option.noConfusion h1
    · rw [if_neg hn1] at h1
      obtain ⟨⟨d2, r2x⟩, hp2, h2⟩ := firstSome_eq_some h1
      obtain ⟨hs2, ok2⟩ := octetSplits_sound hp2
      match r2x with
      | [] => exact Option.noConfusion h2
      | s2 :: r2 =>
        simp only at h2
        by_cases hn2 : s2 = '\n'
        · rw [if_pos hn2] at h2; exact Option.noConfusion h2
        · rw [if_neg hn2] at h2
          obtain ⟨⟨d3, r3x⟩, hp3, h3⟩ := firstSome_eq_some h2
          obtain ⟨hs3, ok3⟩ := octetSplits_sound hp3
          match r3x with
          | [] => exact Option.noConfusion h3
          | s3 :: r3 =>
            simp only at h3
            by_cases hn3 : s3 = '\n'
            · rw [if_pos hn3] at h3; exact Option.noConfusion h3
            · rw [if_neg hn3] at h3
              cases hos : octetSplits r3 with
              | nil => rw [hos] at h3; exact Option.noConfusion h3
              | cons p4 p4s =>
                rw [hos] at h3
                obtain ⟨hs4, ok4⟩ :=
                  octetSplits_sound (hos ▸ List.mem_cons_self p4 p4s)
                have hm : m = d1 ++ s1 :: (d2 ++ s2 :: (d3 ++ s3 :: p4.1)) :=
                  (Option.some.inj h3).symm
                constructor
                · refine ⟨p4.2, ?_⟩
                  rw [hs1, hs2, hs3, hs4, hm] at *
                  simp [List.append_assoc]
                · exact ⟨d1, s1, d2, s2, d3, s3, p4.1, hm, ok1, hn1, ok2,
                    hn2, ok3, hn3, ok4⟩

theorem matchQuadAt_none {s : List Char} (h : matchQuadAt s = none) :
    ∀ m t, s = m ++ t → ¬ QuadShapeWith okSep m := by
  rintro m t hs ⟨d1, s1, d2, s2, d3, s3, d4, hm, ok1, hn1, ok2, hn2, ok3,
    hn3, ok4⟩
  subst hm
  have hs1 : s = d1 ++ (s1 :: ((d2 ++ s2 :: (d3 ++ s3 :: d4)) ++ t)) := by
    rw [hs]; simp [List.append_assoc]
  unfold matchQuadAt at h
  have h1 := firstSome_eq_none h (d1, s1 :: ((d2 ++ s2 :: (d3 ++ s3 :: d4)) ++ t))
    (hs1 ▸ octetSplits_complete ok1)
  simp only at h1
  rw [if_neg hn1] at h1
  have e2 : (d2 ++ s2 :: (d3 ++ s3 :: d4)) ++ t =
      d2 ++ (s2 :: ((d3 ++ s3 :: d4) ++ t)) := by
    simp [List.append_assoc]
  have h2 := firstSome_eq_none h1 (d2, s2 :: ((d3 ++ s3 :: d4) ++ t))
    (e2 ▸ octetSplits_complete ok2)
  simp only at h2
  rw [if_neg hn2] at h2
  have e3 : (d3 ++ s3 :: d4) ++ t = d3 ++ (s3 :: (d4 ++ t)) := by
    simp [List.append_assoc]
  have h3 := firstSome_eq_none h2 (d3, s3 :: (d4 ++ t))
    (e3 ▸ octetSplits_complete ok3)
  simp only at h3
  rw [if_neg hn3] at h3
  have h4 := octetSplits_complete (r := t) ok4
  cases hos : octetSplits (d4 ++ t) with
  | nil => rw [hos] at h4; cases h4
  | cons p4 p4s => rw [hos] at h3; exact Option.noConfusion h3

theorem reSearchQuad_none {l : List Char} (h : reSearchQuad l = none) :
    ∀ i, matchQuadAt (l.drop i) = none := by
  induction l with
  | nil => intro i; rw [List.drop_nil]; rfl
  | cons c rest ih =>
    unfold reSearchQuad at h
    cases hm : matchQuadAt (c :: rest) with
    | some m => rw [hm] at h; exact Option.noConfusion h
    | none =>
      rw [hm] at h
      intro i
      match i with
      | 0 => exact hm
      | i + 1 => rw [List.drop_succ_cons]; exact ih h i

theorem reSearchQuad_some {l m : List Char} (h : reSearchQuad l = some m) :
    ∃ i, matchQuadAt (l.drop i) = some m ∧
      ∀ j, j < i → matchQuadAt (l.drop j) = none := by
  induction l with
  | nil => exact Option.noConfusion h
  | cons c rest ih =>
    unfold reSearchQuad at h
    cases hm : matchQuadAt (c :: rest) with
    | some m2 =>
      rw [hm] at h
      exact ⟨0, hm.trans h, fun j hj => absurd hj (Nat.not_lt_zero j)⟩
    | none =>
      rw [hm] at h
      obtain ⟨i, hi, hbefore⟩ := ih h
      refine ⟨i + 1, by rw [List.drop_succ_cons]; exact hi, fun j hj => ?_⟩
      match j with
      | 0 => exact hm
      | j + 1 =>
        rw [List.drop_succ_cons]
        exact hbefore j (Nat.lt_of_succ_lt_succ hj)

/-- C2 counterexample: the claim allows any character as separator; the
title below contains a substring of that shape (with newline separators),
yet the extraction returns none, because `.` in Python `re` does not match
a newline. -/
theorem c2_counterexample :
    SubAt ("1\n1\n1\n1".toList) 0 ("1\n1\n1\n1".toList) ∧
    QuadShapeWith (fun _ => True) ("1\n1\n1\n1".toList) ∧
    get_ticket_title_ip "1\n1\n1\n1" = none := by
  refine ⟨⟨[], by decide⟩,
    ⟨['1'], '\n', ['1'], '\n', ['1'], '\n', ['1'], by decide, by decide,
      trivial, by decide, trivial, by decide, trivial, by decide⟩, by decide⟩

/-- C2 amended: with separators restricted to non-newline characters (the
class the pattern `.` actually matches), the extraction returns none when
the title has no substring of the pattern shape; whenever the title does
contain a substring of the pattern shape the extraction succeeds; and any
returned value is a substring of the pattern shape starting at the leftmost
position at which any such substring starts. -/
theorem c2_extract_first_quad (title : String) :
    ((∀ i m, SubAt title.toList i m → ¬ QuadShapeWith okSep m) →
      get_ticket_title_ip title = none) ∧
    ((∃ i m, SubAt title.toList i m ∧ QuadShapeWith okSep m) →
      ∃ ip, get_ticket_title_ip title = some ip) ∧
    (∀ ip, get_ticket_title_ip title = some ip →
      QuadShapeWith okSep ip.toList ∧
      ∃ i, SubAt title.toList i ip.toList ∧
        ∀ j m, SubAt title.toList j m → QuadShapeWith okSep m → i ≤ j) := by
  refine ⟨?_, ?_, ?_⟩
  · intro hnone
    cases hq : reSearchQuad title.toList with
    | none => unfold get_ticket_title_ip; rw [hq]; rfl
    | some m =>
      exfalso
      obtain ⟨i, hi, -⟩ := reSearchQuad_some hq
      obtain ⟨⟨t, ht⟩, hshape⟩ := matchQuadAt_sound hi
      exact hnone i m ⟨t, ht⟩ hshape
  · rintro ⟨i, m, ⟨t, ht⟩, hshape⟩
    cases hq : reSearchQuad title.toList with
    | none =>
      exact absurd hshape (matchQuadAt_none (reSearchQuad_none hq i) m t ht)
    | some m2 =>
      refine ⟨String.mk m2, ?_⟩
      unfold get_ticket_title_ip
      rw [hq]
      rfl
  · intro ip hip
    unfold get_ticket_title_ip at hip
    cases hq : reSearchQuad title.toList with
    | none => rw [hq] at hip; exact Option.noConfusion hip
    | some m =>
      rw [hq] at hip
      simp only [Option.map] at hip
      have hipm : String.mk m = ip := Option.some.inj hip
      have hlist : ip.toList = m := by rw [← hipm]; rfl
      obtain ⟨i, hi, hbefore⟩ := reSearchQuad_some hq
      obtain ⟨⟨t, ht⟩, hshape⟩ := matchQuadAt_sound hi
      refine ⟨hlist ▸ hshape, i, ⟨t, by rw [hlist]; exact ht⟩, ?_⟩
      intro j m2 ⟨t2, ht2⟩ hshape2
      by_contra hij
      exact matchQuadAt_none (hbefore j (Nat.lt_of_not_le hij)) m2 t2 ht2
        hshape2

/-- Witness for C2 at a concrete title: the extraction returns 203.0.113.5
and it has the pattern shape. -/
theorem c2_witness :
    ∃ ip, get_ticket_title_ip
        "Contactformulier KPN voor het IP adres [203.0.113.5]" = some ip ∧
      QuadShapeWith okSep ip.toList :=
  ⟨"203.0.113.5", by decide,
    ((c2_extract_first_quad
        "Contactformulier KPN voor het IP adres [203.0.113.5]").2.2
      "203.0.113.5" (by decide)).1⟩

/-- C10: the title written by the new-dossier action is exactly the literal
phrase embedded between the wildcards of the secondary-search title filter
for the same ip, and the dossier queue 25 the action moves the ticket to is
one of the secondary-search queues. -/
theorem c10_dossier_matches_secondary_search (ip : String) :
    secondary_search_filter (some ip) = "%" ++ new_dossier_title ip ++ "%" ∧
    dossier_queue ∈ secondary_search_queues := by
  constructor
  · simp only [secondary_search_filter, new_dossier_title, pyStr,
      String.append_assoc]
    rfl
  · decide
